import Mathlib

/-!
Verification of the company-research orchestration pipeline of the jobhelp
backend (`app/services/company_research/`), against its natural-language
specification.

The embedding below translates, from the Python source:
  * the schema enums and records of `app/models/schemas/company_research.py`
    (`ResearchSource`, `ResearchStatus`, `ResearchTaskResult`,
    `CompanyResearchResponse`, `ResearchProgress`);
  * the shared resilience wrapper
    `BaseResearchSource.execute_research` of
    `research_sources/base_research_source.py`;
  * the orchestrator `CompanyResearchOrchestrator` of
    `company_research_orchestrator.py` (pipeline configuration, fan-out
    pipeline, aggregation, response builders, cost estimation, progress and
    cancellation bookkeeping).

Modelling conventions:
  * Python floats used for money/progress are modelled as `ℚ` (the program
    only ever adds and divides small decimal constants);
  * a Python `Dict[str, Any]` payload is modelled by the JSON-like type
    `PyValue` and association lists `Payload`;
  * provider calls (`research()`), which are external I/O, are modelled by
    an oracle `probe : ℕ → Except String Payload` giving the outcome of the
    k-th attempt; wall-clock durations are threaded as explicit parameters;
  * `asyncio` concurrency is modelled by making the completion order of the
    fan-out an arbitrary permutation of the dispatch order;
  * a pydantic model whose required field is not passed at the construction
    site raises `ValidationError`.  `CompanyResearchResponse.request_id` is
    a required `str` in the schema; we model the field as `Option String`
    (`none` = the constructor call does not pass it) together with the
    predicate `response_construction_ok`, which holds iff pydantic accepts
    the construction.
-/

namespace JobHelp

/-- The `ResearchSource` enum of `company_research.py` (lines 9-16). -/
inductive ResearchSource
  | WHOIS
  | WEB_SEARCH
  | KNOWLEDGE_GRAPH
  | AI_ANALYSIS
  | LOCATION_VERIFICATION
  | PORTFOLIO_RESEARCH
  deriving DecidableEq, Repr

/-- The `ResearchStatus` enum of `company_research.py` (lines 18-24). -/
inductive ResearchStatus
  | PENDING
  | IN_PROGRESS
  | COMPLETED
  | FAILED
  | PARTIAL
  deriving DecidableEq, Repr

/-- A status is terminal when it is one of Completed, Failed or Partial
(the spec's request-level state machine; Pending and InProgress are the
non-terminal states). -/
def is_terminal : ResearchStatus → Bool
  | .COMPLETED => true
  | .FAILED => true
  | .PARTIAL => true
  | .PENDING => false
  | .IN_PROGRESS => false

/-- String `.value` of a `ResearchSource` member. -/
def source_value : ResearchSource → String
  | .WHOIS => "whois"
  | .WEB_SEARCH => "web_search"
  | .KNOWLEDGE_GRAPH => "knowledge_graph"
  | .AI_ANALYSIS => "ai_analysis"
  | .LOCATION_VERIFICATION => "location_verification"
  | .PORTFOLIO_RESEARCH => "portfolio_research"

/-- JSON-like model of a Python value stored in a `Dict[str, Any]` payload. -/
inductive PyValue
  | str : String → PyValue
  | list : List PyValue → PyValue
  | dict : List (String × PyValue) → PyValue

/-- Model of a Python `Dict[str, Any]` payload: an insertion-ordered
association list. -/
abbrev Payload := List (String × PyValue)

/-- Python truthiness of an optional dict value (`None` and `{}` are falsy). -/
def dict_truthy : Option Payload → Bool
  | none => false
  | some p => !p.isEmpty

/-- Python `d.get(k, default)` on a payload dict. -/
def pyget (d : Payload) (k : String) (dflt : PyValue) : PyValue :=
  match d.find? (fun kv => kv.1 == k) with
  | some kv => kv.2
  | none => dflt

/-- Coerce a `PyValue` expected to be a dict to its entries (the modelled
flows only ever store dicts under the per-source keys). -/
def as_dict : PyValue → Payload
  | .dict d => d
  | _ => []

/-- Coerce a `PyValue` expected to be a string (used for the AI narrative
fields, which the AI stage stores as strings). -/
def as_str (v : PyValue) (dflt : String) : String :=
  match v with
  | .str s => s
  | _ => dflt

/-- Python `dict.update`: existing keys are overwritten in place, new keys
are appended in order. -/
def dict_update (d e : Payload) : Payload :=
  (d.map fun kv =>
    match e.find? (fun kv2 => kv2.1 == kv.1) with
    | some kv2 => (kv.1, kv2.2)
    | none => kv)
  ++ e.filter (fun kv2 => !(d.any (fun kv => kv.1 == kv2.1)))

/-- The `ResearchTaskResult` pydantic model (`company_research.py` lines
190-198).  The `timestamp` field (a wall-clock datetime default) carries no
program logic and is omitted. -/
structure ResearchTaskResult where
  source : ResearchSource
  status : ResearchStatus
  data : Option Payload := none
  error_message : Option String := none
  processing_time : ℚ
  cost_estimate : Option ℚ := none

/-- The `ResearchProgress` pydantic model (`company_research.py` lines
242-251; `current_task` and `estimated_completion_time` are never written by
the orchestrator and are omitted). -/
structure ResearchProgress where
  request_id : String
  company_name : String
  overall_progress : ℚ
  completed_tasks : List ResearchSource := []
  failed_tasks : List ResearchSource := []
  status : ResearchStatus := ResearchStatus.PENDING
  deriving DecidableEq, Repr

/-- The `CompanyResearchRequest` pydantic model (`company_research.py` lines
26-41); the cost-policy flags are never read by the orchestrator and are
omitted.  `company_name`/`company_domain` are `Optional[str]`. -/
structure CompanyResearchRequest where
  company_name : Option String := none
  company_domain : Option String := none
  research_depth : String := "standard"
  deriving DecidableEq, Repr

/-- Python truthiness of an `Optional[str]` (`None` and `""` are falsy). -/
def str_truthy : Option String → Bool
  | none => false
  | some s => !(s == "")

/-- The `model_validator` of `CompanyResearchRequest` (lines 36-41): at
least one of name/domain must be (truthily) provided, otherwise pydantic
raises before the orchestrator is ever called. -/
def request_valid (req : CompanyResearchRequest) : Bool :=
  str_truthy req.company_name || str_truthy req.company_domain

/-- The `CompanyResearchResponse` pydantic model (`company_research.py`
lines 200-240), restricted to the fields the orchestrator's builders pass
(the remaining schema fields are optional with defaults and are never
touched by the orchestrator).  `request_id` is declared as a required `str`
in the schema; it is modelled as `Option String`, `none` meaning the
construction site did not pass it. -/
structure CompanyResearchResponse where
  request_id : Option String := none
  company_name : String
  company_domain : Option String := none
  whois_data : Option Payload := none
  web_search_results : Option PyValue := none
  knowledge_graph_data : Option Payload := none
  company_authenticity : Option PyValue := none
  company_growth : Option PyValue := none
  employee_insights : Option PyValue := none
  executive_summary : String
  key_insights : PyValue
  risk_assessment : String
  recommendations : PyValue
  research_depth : String
  research_status : ResearchStatus
  total_processing_time : ℚ
  total_cost : Option ℚ := none
  sources_used : List ResearchSource
  failed_sources : List ResearchSource
  task_results : List ResearchTaskResult

/-- Pydantic accepts a `CompanyResearchResponse(...)` construction iff every
required field was passed; among the fields the builders can omit, only
`request_id` is required. -/
def response_construction_ok (r : CompanyResearchResponse) : Bool :=
  r.request_id.isSome

/-! ## The resilience wrapper: `BaseResearchSource.execute_research`
(`base_research_source.py` lines 42-99). -/

/-- Model of one concrete provider for one wrapped call: its health check,
its fixed per-call cost estimate, and an oracle giving the outcome of the
k-th `research()` attempt. -/
structure ProbeModel where
  healthy : Bool
  cost : ℚ
  probe : ℕ → Except String Payload

/-- Observable outcome of one `execute_research` call: the returned
`ResearchTaskResult`, the list of back-off sleep durations issued (in
order), and the number of `research()` invocations made. -/
structure ExecOutcome where
  result : ResearchTaskResult
  sleeps : List ℚ
  probeCalls : ℕ

/-- The retry loop of `execute_research` (lines 58-89).  `attempt` is the
0-indexed attempt counter of `for attempt in range(self.max_retries)`;
`remaining` is `max_retries - attempt`, the number of attempts left (the
loop is always entered with `remaining = max_retries`).  A failing attempt
with `remaining = 1` is the final one (`attempt == max_retries - 1`) and
returns the Failed result; otherwise the loop sleeps
`retry_delay * 2 ^ attempt` and retries.  The `remaining = 0` case encodes
the loop body never running (only possible if `max_retries = 0`, which the
source fixes to 3). -/
def retry_loop (src : ResearchSource) (cost retry_delay elapsed : ℚ)
    (probe : ℕ → Except String Payload) : ℕ → ℕ → ExecOutcome
  | _, 0 =>
      { result := { source := src, status := ResearchStatus.FAILED,
                    error_message := some "no attempts",
                    processing_time := elapsed, cost_estimate := some cost },
        sleeps := [], probeCalls := 0 }
  | attempt, remaining + 1 =>
      match probe attempt with
      | .ok d =>
          { result := { source := src, status := ResearchStatus.COMPLETED,
                        data := some d, processing_time := elapsed,
                        cost_estimate := some cost },
            sleeps := [], probeCalls := 1 }
      | .error e =>
          if remaining = 0 then
            { result := { source := src, status := ResearchStatus.FAILED,
                          error_message := some e,
                          processing_time := elapsed,
                          cost_estimate := some cost },
              sleeps := [], probeCalls := 1 }
          else
            let rest := retry_loop src cost retry_delay elapsed probe
              (attempt + 1) remaining
            { result := rest.result,
              sleeps := retry_delay * 2 ^ attempt :: rest.sleeps,
              probeCalls := rest.probeCalls + 1 }

/-- The base-class constants `max_retries = 3`, `retry_delay = 1`
(`base_research_source.py` lines 24-25). -/
def max_retries : ℕ := 3

/-- Base back-off delay in seconds (`self.retry_delay = 1`). -/
def retry_delay_base : ℚ := 1

/-- `BaseResearchSource.execute_research` (lines 42-99): if `is_healthy()`
is false, return a Failed result immediately (error message
"Service is not healthy", zero `research()` calls, no sleeps); otherwise
run the retry loop. -/
def execute_research (pm : ProbeModel) (src : ResearchSource) (elapsed : ℚ) :
    ExecOutcome :=
  if pm.healthy then
    retry_loop src pm.cost retry_delay_base elapsed pm.probe 0 max_retries
  else
    { result := { source := src, status := ResearchStatus.FAILED,
                  error_message := some "Service is not healthy",
                  processing_time := elapsed, cost_estimate := some pm.cost },
      sleeps := [], probeCalls := 0 }

/-! ## The orchestrator: `CompanyResearchOrchestrator`
(`company_research_orchestrator.py`). -/

/-- Python truthiness of a `PyValue` (the builder tests
`if whois_data`, `if web_search_results`, ...). -/
def pv_truthy : PyValue → Bool
  | .str s => !(s == "")
  | .list l => !l.isEmpty
  | .dict d => !d.isEmpty

/-- Python `d.get(k)` (returns `None` when the key is absent). -/
def pyget? (d : Payload) (k : String) : Option PyValue :=
  (d.find? (fun kv => kv.1 == k)).map (·.2)

/-- Keys of `self.research_sources` (orchestrator `__init__`, lines 28-33):
the four registered provider instances. -/
def research_sources_keys : List ResearchSource :=
  [ResearchSource.WHOIS, ResearchSource.WEB_SEARCH,
   ResearchSource.KNOWLEDGE_GRAPH, ResearchSource.AI_ANALYSIS]

/-- `self.pipeline_config` (lines 36-40): the depth table;
`none` models a key absent from the dict. -/
def pipeline_config (depth : String) : Option (List ResearchSource) :=
  if depth = "basic" then
    some [ResearchSource.WEB_SEARCH]
  else if depth = "standard" then
    some [ResearchSource.WHOIS, ResearchSource.WEB_SEARCH,
          ResearchSource.KNOWLEDGE_GRAPH]
  else if depth = "comprehensive" then
    some [ResearchSource.WHOIS, ResearchSource.WEB_SEARCH,
          ResearchSource.KNOWLEDGE_GRAPH, ResearchSource.AI_ANALYSIS]
  else none

/-- Line 61: `self.pipeline_config.get(request.research_depth,
self.pipeline_config["standard"])` — the source selection used for task
execution, falling back to the standard list. -/
def selected_sources (depth : String) : List ResearchSource :=
  (pipeline_config depth).getD
    [ResearchSource.WHOIS, ResearchSource.WEB_SEARCH,
     ResearchSource.KNOWLEDGE_GRAPH]

/-- Lines 111-114: tasks are created only for selected sources registered in
`self.research_sources`. -/
def dispatched_sources (depth : String) : List ResearchSource :=
  (selected_sources depth).filter (fun s => decide (s ∈ research_sources_keys))

/-- Lines 304 and 308-309 (`get_cost_estimate`): the source selection used
for cost estimation — `self.pipeline_config.get(research_depth, [])`,
filtered by registration, falling back to the EMPTY list. -/
def get_cost_estimate_sources (depth : String) : List ResearchSource :=
  ((pipeline_config depth).getD []).filter
    (fun s => decide (s ∈ research_sources_keys))

/-- Lines 306-312: `estimated_total_cost` of `get_cost_estimate`, given each
registered provider's `get_cost_estimate()` value. -/
def get_cost_estimate_total (costOf : ResearchSource → ℚ) (depth : String) : ℚ :=
  (get_cost_estimate_sources depth).foldl (fun acc s => acc + costOf s) 0

/-- `WHOISService.get_cost_estimate` (`whois_service.py` line 231). -/
def whois_cost : ℚ := 0

/-- `KnowledgeGraphService.get_cost_estimate`
(`knowledge_graph_service.py` line 378). -/
def knowledge_graph_cost : ℚ := 0

/-- `AIAnalysisService.get_cost_estimate` (`ai_analysis_service.py`
line 433). -/
def ai_analysis_cost : ℚ := 2 / 100

/-- `WebSearchService.get_cost_estimate` (`web_search_service.py` lines
300-306): 0.05 with a Parallel key, else 0.01 with a Google key, else 0. -/
def web_search_cost (parallel_api_key google_api_key : Option String) : ℚ :=
  if str_truthy parallel_api_key then 5 / 100
  else if str_truthy google_api_key then 1 / 100
  else 0

/-- Display label `request.company_name or request.company_domain or
"Unknown Company"` (lines 53, 235, 266). -/
def company_label (req : CompanyResearchRequest) : String :=
  if str_truthy req.company_name then req.company_name.getD ""
  else if str_truthy req.company_domain then req.company_domain.getD ""
  else "Unknown Company"

/-- `_aggregate_research_data` (lines 180-189): map each source's `.value`
name to its payload, for Completed results with truthy data. -/
def aggregate_research_data (task_results : List ResearchTaskResult) : Payload :=
  task_results.foldl
    (fun acc r =>
      if r.status = ResearchStatus.COMPLETED ∧ dict_truthy r.data = true then
        acc ++ [(source_value r.source, PyValue.dict (r.data.getD []))]
      else acc) []

/-- `_calculate_total_cost` (lines 281-287): sum the truthy
`cost_estimate` fields (`None` and `0.0` are skipped). -/
def calculate_total_cost (task_results : List ResearchTaskResult) : ℚ :=
  task_results.foldl
    (fun acc r =>
      match r.cost_estimate with
      | some c => if c ≠ 0 then acc + c else acc
      | none => acc) 0

/-- `_build_research_response` (lines 213-256).  Note: `research_status` is
set unconditionally to `COMPLETED`, and `request_id` is not passed. -/
def build_research_response (req : CompanyResearchRequest)
    (research_data : Payload) (task_results : List ResearchTaskResult)
    (total_elapsed : ℚ) : CompanyResearchResponse :=
  let whois_data := as_dict (pyget research_data "whois" (.dict []))
  let web_search_results :=
    pyget (as_dict (pyget research_data "web_search" (.dict [])))
      "search_results" (.list [])
  let knowledge_graph_data :=
    as_dict (pyget research_data "knowledge_graph" (.dict []))
  let ai_results := as_dict (pyget research_data "ai_analysis" (.dict []))
  { request_id := none,
    company_name := company_label req,
    company_domain := req.company_domain,
    whois_data := if whois_data.isEmpty then none else some whois_data,
    web_search_results :=
      if pv_truthy web_search_results then some web_search_results else none,
    knowledge_graph_data :=
      if knowledge_graph_data.isEmpty then none else some knowledge_graph_data,
    company_authenticity := pyget? ai_results "company_authenticity",
    company_growth := pyget? ai_results "company_growth",
    employee_insights := pyget? ai_results "employee_insights",
    executive_summary :=
      as_str (pyget ai_results "executive_summary"
        (.str "Analysis completed successfully."))
        "Analysis completed successfully.",
    key_insights :=
      pyget ai_results "key_insights"
        (.list [.str "Research completed with available data"]),
    risk_assessment :=
      as_str (pyget ai_results "risk_assessment"
        (.str "Risk assessment completed")) "Risk assessment completed",
    recommendations :=
      pyget ai_results "recommendations"
        (.list [.str "Review all data carefully"]),
    research_depth := req.research_depth,
    research_status := ResearchStatus.COMPLETED,
    total_processing_time := total_elapsed,
    total_cost := some (calculate_total_cost task_results),
    sources_used :=
      ((task_results.filter
        (fun r => decide (r.status = ResearchStatus.COMPLETED))).map (·.source)),
    failed_sources :=
      ((task_results.filter
        (fun r => decide (r.status = ResearchStatus.FAILED))).map (·.source)),
    task_results := task_results }

/-- `_build_error_response` (lines 258-279).  `request_id` is not passed
here either. -/
def build_error_response (req : CompanyResearchRequest)
    (error_message : String) (total_elapsed : ℚ) : CompanyResearchResponse :=
  { request_id := none,
    company_name := company_label req,
    company_domain := req.company_domain,
    executive_summary := "Research failed: " ++ error_message,
    key_insights := .list [.str "Research could not be completed"],
    risk_assessment := "Unable to assess risks due to research failure",
    recommendations :=
      .list [.str "Try again later", .str "Verify company information manually"],
    research_depth := req.research_depth,
    research_status := ResearchStatus.FAILED,
    total_processing_time := total_elapsed,
    total_cost := some 0,
    sources_used := [],
    failed_sources := [],
    task_results := [] }

/-! ### `_execute_research_pipeline` (lines 99-142). -/

/-- Accumulated loop state of the fan-in loop: the ordered result list, the
current shared `ResearchProgress` object, and the sequence of progress
snapshots taken after each iteration. -/
structure PipelineAcc where
  task_results : List ResearchTaskResult
  progress : ResearchProgress
  trace : List ResearchProgress

/-- One iteration of `for i, task in enumerate(asyncio.as_completed(...))`
(lines 117-127): append the result, set `overall_progress` to
`((i + 1) / total_sources) * 100`, append to `completed_tasks`, and to
`failed_tasks` when the result is Failed. -/
def pipeline_step (total_sources : ℕ) (acc : PipelineAcc) (i : ℕ)
    (r : ResearchTaskResult) : PipelineAcc :=
  let p := acc.progress
  let p2 : ResearchProgress :=
    { p with
      overall_progress := ((i + 1 : ℚ) / (total_sources : ℚ)) * 100,
      completed_tasks := p.completed_tasks ++ [r.source],
      failed_tasks :=
        if r.status = ResearchStatus.FAILED then p.failed_tasks ++ [r.source]
        else p.failed_tasks }
  { task_results := acc.task_results ++ [r], progress := p2,
    trace := acc.trace ++ [p2] }

/-- The fan-in loop, indexed like `enumerate` starting at `i`. -/
def pipeline_loop (total_sources : ℕ) :
    ℕ → List ResearchTaskResult → PipelineAcc → PipelineAcc
  | _, [], acc => acc
  | i, r :: rest, acc =>
      pipeline_loop total_sources (i + 1) rest (pipeline_step total_sources acc i r)

/-- `_execute_research_pipeline`: awaiting each dispatched task yields the
`execute_research` result of its source (`_execute_research_task`, lines
144-178, which never lets an exception escape); `order` is the completion
order produced by `asyncio.as_completed` — an arbitrary permutation of the
dispatch list; `total_sources = len(research_sources)` (line 107) counts the
whole selection, before the registration filter. -/
def execute_research_pipeline (providers : ResearchSource → ProbeModel)
    (elapsed : ResearchSource → ℚ) (research_sources : List ResearchSource)
    (order : List ResearchSource) (p0 : ResearchProgress) : PipelineAcc :=
  pipeline_loop research_sources.length 0
    (order.map fun s => (execute_research (providers s) s (elapsed s)).result)
    { task_results := [], progress := p0, trace := [] }

/-! ### `research_company` (lines 45-97) and the session registry. -/

/-- Lines 80-82 (success path of `research_company`): the shared progress
object is set to 100%, `COMPLETED`, with `completed_tasks` overwritten by
the full selection — unconditionally. -/
def completion_update (research_sources : List ResearchSource)
    (p : ResearchProgress) : ResearchProgress :=
  { p with
      overall_progress := 100,
      status := ResearchStatus.COMPLETED,
      completed_tasks := research_sources }

/-- Observable log of one `research_company` run: the response the success
path builds, the sequence of states the session's progress object passes
through, the collected task results, the fan-out dispatch list, and the
arguments of each post-fan-out AI-synthesis invocation
(`_perform_ai_analysis`, lines 72-74 and 191-211). -/
structure RunLog where
  response : CompanyResearchResponse
  progress_trace : List ResearchProgress
  task_results : List ResearchTaskResult
  dispatched : List ResearchSource
  ai_post_calls : List (Payload × List ResearchTaskResult)

/-- `research_company` (lines 45-97), success path.  `ai_post` is the
oracle for `ai_service.research(...)` as invoked by `_perform_ai_analysis`
(which catches its own exceptions, so the oracle is total);
its result is merged into the aggregated map via `dict.update` (line 74).
The construction of the final `CompanyResearchResponse` omits `request_id`
(see `response_construction_ok`): in the running program both builders
therefore raise `ValidationError`; the record below is the value the
builders assemble and hand to the pydantic constructor. -/
def research_company (providers : ResearchSource → ProbeModel)
    (elapsed : ResearchSource → ℚ) (total_elapsed : ℚ)
    (ai_post : Payload → List ResearchTaskResult → Payload)
    (req : CompanyResearchRequest) (request_id : String)
    (order : List ResearchSource) : RunLog :=
  let p0 : ResearchProgress :=
    { request_id := request_id, company_name := company_label req,
      overall_progress := 0, status := ResearchStatus.IN_PROGRESS }
  let research_sources := selected_sources req.research_depth
  let dispatched :=
    research_sources.filter (fun s => decide (s ∈ research_sources_keys))
  let acc := execute_research_pipeline providers elapsed research_sources order p0
  let research_data := aggregate_research_data acc.task_results
  let ai_selected := decide (ResearchSource.AI_ANALYSIS ∈ research_sources)
  let research_data2 :=
    if ai_selected then
      dict_update research_data (ai_post research_data acc.task_results)
    else research_data
  let response := build_research_response req research_data2 acc.task_results total_elapsed
  let pFinal := completion_update research_sources acc.progress
  { response := response,
    progress_trace := p0 :: acc.trace ++ [pFinal],
    task_results := acc.task_results,
    dispatched := dispatched,
    ai_post_calls :=
      if ai_selected then [(research_data, acc.task_results)] else [] }

/-- The in-memory session registry `self.active_research_sessions`. -/
abbrev SessionMap := List (String × ResearchProgress)

/-- `get_research_progress` (lines 289-291). -/
def get_research_progress (sessions : SessionMap) (request_id : String) :
    Option ResearchProgress :=
  (sessions.find? (fun kv => kv.1 == request_id)).map (·.2)

/-- In the source, the progress object stored under
`active_research_sessions[request_id]` is aliased by `research_company` and
mutated in place; a write through the alias is a pointwise update of the
registry entry. -/
def session_write (sessions : SessionMap) (request_id : String)
    (f : ResearchProgress → ResearchProgress) : SessionMap :=
  sessions.map fun kv =>
    if kv.1 == request_id then (kv.1, f kv.2) else kv

/-- Effect of `cancel_research` on a found session's progress object
(lines 297-298): status `FAILED`, progress 0. -/
def cancel_update (p : ResearchProgress) : ResearchProgress :=
  { p with status := ResearchStatus.FAILED, overall_progress := 0 }

/-- `cancel_research` (lines 293-300): if the id is registered, mutate its
progress via `cancel_update` and return true; otherwise return false. -/
def cancel_research (sessions : SessionMap) (request_id : String) :
    SessionMap × Bool :=
  match sessions.find? (fun kv => kv.1 == request_id) with
  | some _ => (session_write sessions request_id cancel_update, true)
  | none => (sessions, false)

/-! ## Structural lemmas -/

/-! Basic facts about the wrapper, shared by several claims. -/

theorem retry_loop_source (src : ResearchSource) (cost rd e : ℚ)
    (probe : ℕ → Except String Payload) (attempt remaining : ℕ) :
    (retry_loop src cost rd e probe attempt remaining).result.source = src := by
  induction remaining generalizing attempt with
  | zero => rfl
  | succ r ih =>
      unfold retry_loop
      cases probe attempt with
      | ok d => rfl
      | error msg =>
          by_cases h : r = 0
          · simp [h]
          · simp [h, ih]

theorem retry_loop_status (src : ResearchSource) (cost rd e : ℚ)
    (probe : ℕ → Except String Payload) (attempt remaining : ℕ) :
    (retry_loop src cost rd e probe attempt remaining).result.status =
      ResearchStatus.COMPLETED ∨
    (retry_loop src cost rd e probe attempt remaining).result.status =
      ResearchStatus.FAILED := by
  induction remaining generalizing attempt with
  | zero => exact Or.inr rfl
  | succ r ih =>
      unfold retry_loop
      cases probe attempt with
      | ok d => exact Or.inl rfl
      | error msg =>
          by_cases h : r = 0
          · simp [h]
          · simpa [h] using ih (attempt + 1)

theorem retry_loop_cost (src : ResearchSource) (cost rd e : ℚ)
    (probe : ℕ → Except String Payload) (attempt remaining : ℕ) :
    (retry_loop src cost rd e probe attempt remaining).result.cost_estimate =
      some cost := by
  induction remaining generalizing attempt with
  | zero => rfl
  | succ r ih =>
      unfold retry_loop
      cases probe attempt with
      | ok d => rfl
      | error msg =>
          by_cases h : r = 0
          · simp [h]
          · simp [h, ih]

theorem execute_research_source (pm : ProbeModel) (src : ResearchSource)
    (e : ℚ) : (execute_research pm src e).result.source = src := by
  unfold execute_research
  by_cases h : pm.healthy
  · simpa [h] using retry_loop_source src pm.cost retry_delay_base e pm.probe 0 max_retries
  · simp [h]

theorem execute_research_status (pm : ProbeModel) (src : ResearchSource)
    (e : ℚ) :
    (execute_research pm src e).result.status = ResearchStatus.COMPLETED ∨
    (execute_research pm src e).result.status = ResearchStatus.FAILED := by
  unfold execute_research
  by_cases h : pm.healthy
  · simpa [h] using retry_loop_status src pm.cost retry_delay_base e pm.probe 0 max_retries
  · simp [h]

theorem execute_research_cost (pm : ProbeModel) (src : ResearchSource)
    (e : ℚ) :
    (execute_research pm src e).result.cost_estimate = some pm.cost := by
  unfold execute_research
  by_cases h : pm.healthy
  · simpa [h] using retry_loop_cost src pm.cost retry_delay_base e pm.probe 0 max_retries
  · simp [h]


theorem retry_loop_calls_le (src : ResearchSource) (cost rd e : ℚ)
    (probe : ℕ → Except String Payload) (attempt remaining : ℕ) :
    (retry_loop src cost rd e probe attempt remaining).probeCalls ≤ remaining := by
  induction remaining generalizing attempt with
  | zero => exact Nat.le_refl 0
  | succ r ih =>
      unfold retry_loop
      cases probe attempt with
      | ok d => simp
      | error msg =>
          by_cases h : r = 0
          · simp [h]
          · simpa [h, Nat.succ_le_succ_iff] using ih (attempt + 1)

theorem dispatched_sources_eq_selected (depth : String) :
    dispatched_sources depth = selected_sources depth := by
  unfold dispatched_sources selected_sources pipeline_config
  split_ifs <;> decide

theorem dispatched_sources_nodup (depth : String) :
    (dispatched_sources depth).Nodup := by
  unfold dispatched_sources selected_sources pipeline_config
  split_ifs <;> decide

theorem selected_sources_length_pos (depth : String) :
    0 < (selected_sources depth).length := by
  unfold selected_sources pipeline_config
  split_ifs <;> decide

theorem pipeline_loop_task_results (t : ℕ) (rs : List ResearchTaskResult) :
    ∀ (i : ℕ) (acc : PipelineAcc),
    (pipeline_loop t i rs acc).task_results = acc.task_results ++ rs := by
  induction rs with
  | nil => intro i acc; simp [pipeline_loop]
  | cons r rest ih =>
      intro i acc
      simp only [pipeline_loop]
      rw [ih]
      simp [pipeline_step]

theorem pipeline_loop_progress_status (t : ℕ) (rs : List ResearchTaskResult) :
    ∀ (i : ℕ) (acc : PipelineAcc),
    (pipeline_loop t i rs acc).progress.status = acc.progress.status := by
  induction rs with
  | nil => intro i acc; rfl
  | cons r rest ih =>
      intro i acc
      simp only [pipeline_loop]
      rw [ih]
      rfl

theorem pipeline_loop_trace_status (t : ℕ) (rs : List ResearchTaskResult) :
    ∀ (i : ℕ) (acc : PipelineAcc) (p : ResearchProgress),
    p ∈ (pipeline_loop t i rs acc).trace →
    p ∈ acc.trace ∨ p.status = acc.progress.status := by
  induction rs with
  | nil => intro i acc p hp; exact Or.inl hp
  | cons r rest ih =>
      intro i acc p hp
      simp only [pipeline_loop] at hp
      rcases ih (i + 1) (pipeline_step t acc i r) p hp with h | h
      · rcases List.mem_append.1 h with h2 | h2
        · exact Or.inl h2
        · right
          rw [List.mem_singleton.1 h2]
      · exact Or.inr h

theorem pipeline_loop_trace_overall (t : ℕ) (rs : List ResearchTaskResult) :
    ∀ (i : ℕ) (acc : PipelineAcc),
    (pipeline_loop t i rs acc).trace.map (fun p => p.overall_progress) =
      acc.trace.map (fun p => p.overall_progress) ++
        (List.range rs.length).map
          (fun j => (((i + j : ℕ) : ℚ) + 1) / (t : ℚ) * 100) := by
  induction rs with
  | nil => intro i acc; simp [pipeline_loop]
  | cons r rest ih =>
      intro i acc
      simp only [pipeline_loop]
      rw [ih]
      simp only [pipeline_step, List.length_cons, List.range_succ_eq_map,
        List.map_cons, List.map_map, List.map_append, List.map_nil,
        List.nil_append]
      rw [List.append_assoc]
      simp only [List.singleton_append]
      congr 1
      congr 1
      apply List.map_congr_left
      intro j hj
      simp only [Function.comp_apply]
      push_cast
      ring

theorem execute_research_pipeline_task_results
    (providers : ResearchSource → ProbeModel) (el : ResearchSource → ℚ)
    (srcs order : List ResearchSource) (p0 : ResearchProgress) :
    (execute_research_pipeline providers el srcs order p0).task_results =
      order.map (fun s => (execute_research (providers s) s (el s)).result) := by
  unfold execute_research_pipeline
  rw [pipeline_loop_task_results]
  rfl

theorem pipeline_results_map_source (providers : ResearchSource → ProbeModel)
    (el : ResearchSource → ℚ) (order : List ResearchSource) :
    (order.map (fun s => (execute_research (providers s) s (el s)).result)).map
      (fun r => r.source) = order := by
  rw [List.map_map]
  have h : order.map
      ((fun r => ResearchTaskResult.source r) ∘
        fun s => (execute_research (providers s) s (el s)).result) =
      order.map id := by
    apply List.map_congr_left
    intro s hs
    simp [Function.comp, execute_research_source]
  rw [h, List.map_id]

theorem pipeline_results_mem_status (providers : ResearchSource → ProbeModel)
    (el : ResearchSource → ℚ) (order : List ResearchSource)
    (r : ResearchTaskResult)
    (hr : r ∈ order.map (fun s => (execute_research (providers s) s (el s)).result)) :
    r.status = ResearchStatus.COMPLETED ∨ r.status = ResearchStatus.FAILED := by
  rcases List.mem_map.1 hr with ⟨s, _, rfl⟩
  exact execute_research_status (providers s) s (el s)

theorem pipeline_results_mem_cost (providers : ResearchSource → ProbeModel)
    (el : ResearchSource → ℚ) (order : List ResearchSource)
    (r : ResearchTaskResult)
    (hr : r ∈ order.map (fun s => (execute_research (providers s) s (el s)).result)) :
    ∃ s, r.cost_estimate = some (providers s).cost := by
  rcases List.mem_map.1 hr with ⟨s, _, rfl⟩
  exact ⟨s, execute_research_cost (providers s) s (el s)⟩

theorem execute_research_pipeline_trace_overall
    (providers : ResearchSource → ProbeModel) (el : ResearchSource → ℚ)
    (srcs order : List ResearchSource) (p0 : ResearchProgress) :
    (execute_research_pipeline providers el srcs order p0).trace.map
        (fun p => p.overall_progress) =
      (List.range order.length).map
        (fun j : ℕ => ((j : ℚ) + 1) / (srcs.length : ℚ) * 100) := by
  unfold execute_research_pipeline
  rw [pipeline_loop_trace_overall]
  simp only [List.map_nil, List.nil_append, List.length_map]
  apply List.map_congr_left
  intro j hj
  norm_num

theorem execute_research_pipeline_trace_status
    (providers : ResearchSource → ProbeModel) (el : ResearchSource → ℚ)
    (srcs order : List ResearchSource) (p0 : ResearchProgress)
    (p : ResearchProgress)
    (hp : p ∈ (execute_research_pipeline providers el srcs order p0).trace) :
    p.status = p0.status := by
  unfold execute_research_pipeline at hp
  rcases pipeline_loop_trace_status _ _ _ _ _ hp with h | h
  · simp at h
  · exact h

theorem execute_research_pipeline_progress_status
    (providers : ResearchSource → ProbeModel) (el : ResearchSource → ℚ)
    (srcs order : List ResearchSource) (p0 : ResearchProgress) :
    (execute_research_pipeline providers el srcs order p0).progress.status =
      p0.status := by
  unfold execute_research_pipeline
  rw [pipeline_loop_progress_status]

theorem calculate_total_cost_foldl (trs : List ResearchTaskResult) :
    ∀ a : ℚ,
    trs.foldl
      (fun acc r =>
        match r.cost_estimate with
        | some c => if c ≠ 0 then acc + c else acc
        | none => acc) a =
      a + (trs.map (fun r => r.cost_estimate.getD 0)).sum := by
  induction trs with
  | nil => intro a; simp
  | cons r rest ih =>
      intro a
      simp only [List.foldl_cons, List.map_cons, List.sum_cons]
      rw [ih]
      rcases hr : r.cost_estimate with _ | c
      · simp
      · by_cases hc : c = 0
        · simp [hc]
        · simp only [hc, ne_eq, not_false_eq_true, if_true, Option.getD_some]
          ring

theorem calculate_total_cost_eq_sum (trs : List ResearchTaskResult) :
    calculate_total_cost trs =
      (trs.map (fun r => r.cost_estimate.getD 0)).sum := by
  unfold calculate_total_cost
  rw [calculate_total_cost_foldl]
  ring

theorem get_session_write (sessions : SessionMap) (rid : String)
    (f : ResearchProgress → ResearchProgress) :
    get_research_progress (session_write sessions rid f) rid =
      (get_research_progress sessions rid).map f := by
  induction sessions with
  | nil => rfl
  | cons kv rest ih =>
      unfold get_research_progress session_write
      simp only [List.map_cons, List.find?_cons]
      by_cases h : kv.1 == rid
      · rw [if_pos h]
        simp only [h]
        rfl
      · have hb : (kv.1 == rid) = false := by simpa using h
        rw [if_neg h]
        simp only [hb]
        exact ih

theorem used_failed_disjoint (trs : List ResearchTaskResult)
    (h : (trs.map (fun r => r.source)).Nodup) (s : ResearchSource)
    (hc : s ∈ (trs.filter
      (fun r => decide (r.status = ResearchStatus.COMPLETED))).map
        (fun r => r.source))
    (hf : s ∈ (trs.filter
      (fun r => decide (r.status = ResearchStatus.FAILED))).map
        (fun r => r.source)) : False := by
  rcases List.mem_map.1 hc with ⟨r1, hr1, hs1⟩
  rcases List.mem_map.1 hf with ⟨r2, hr2, hs2⟩
  have h1 := List.mem_filter.1 hr1
  have h2 := List.mem_filter.1 hr2
  have hr12 : r1 = r2 :=
    List.inj_on_of_nodup_map h h1.1 h2.1 (hs1.trans hs2.symm)
  have e1 : r1.status = ResearchStatus.COMPLETED := of_decide_eq_true h1.2
  have e2 : r2.status = ResearchStatus.FAILED := of_decide_eq_true h2.2
  rw [hr12, e2] at e1
  exact ResearchStatus.noConfusion e1

theorem research_company_response_fields
    (providers : ResearchSource → ProbeModel) (el : ResearchSource → ℚ)
    (te : ℚ) (ai_post : Payload → List ResearchTaskResult → Payload)
    (req : CompanyResearchRequest) (rid : String)
    (order : List ResearchSource) :
    (research_company providers el te ai_post req rid order).response.sources_used =
      ((research_company providers el te ai_post req rid order).task_results.filter
        (fun r => decide (r.status = ResearchStatus.COMPLETED))).map
        (fun r => r.source) ∧
    (research_company providers el te ai_post req rid order).response.failed_sources =
      ((research_company providers el te ai_post req rid order).task_results.filter
        (fun r => decide (r.status = ResearchStatus.FAILED))).map
        (fun r => r.source) ∧
    (research_company providers el te ai_post req rid order).task_results =
      order.map (fun s => (execute_research (providers s) s (el s)).result) := by
  refine ⟨rfl, rfl, ?_⟩
  show (execute_research_pipeline providers el
      (selected_sources req.research_depth) order _).task_results = _
  rw [execute_research_pipeline_task_results]

theorem chain_le_range_map (t : ℕ) (f : ℕ → ℚ) (hf : ∀ m, f m ≤ f (m + 1)) :
    ((List.range t).map f).Chain' (· ≤ ·) := by
  rw [List.chain'_map]
  cases t with
  | zero => simp
  | succ n =>
      rw [List.chain'_range_succ]
      intro m _
      exact hf m


theorem research_company_progress_trace
    (providers : ResearchSource → ProbeModel) (el : ResearchSource → ℚ)
    (te : ℚ) (ai_post : Payload → List ResearchTaskResult → Payload)
    (req : CompanyResearchRequest) (rid : String)
    (order : List ResearchSource) :
    (research_company providers el te ai_post req rid order).progress_trace =
      ({ request_id := rid, company_name := company_label req,
         overall_progress := 0,
         status := ResearchStatus.IN_PROGRESS } : ResearchProgress) ::
      ((execute_research_pipeline providers el
          (selected_sources req.research_depth) order
          { request_id := rid, company_name := company_label req,
            overall_progress := 0,
            status := ResearchStatus.IN_PROGRESS }).trace ++
        [completion_update (selected_sources req.research_depth)
          (execute_research_pipeline providers el
            (selected_sources req.research_depth) order
            { request_id := rid, company_name := company_label req,
              overall_progress := 0,
              status := ResearchStatus.IN_PROGRESS }).progress]) := rfl

theorem research_company_progress_values
    (providers : ResearchSource → ProbeModel) (el : ResearchSource → ℚ)
    (te : ℚ) (ai_post : Payload → List ResearchTaskResult → Payload)
    (req : CompanyResearchRequest) (rid : String)
    (order : List ResearchSource)
    (h : order.Perm (dispatched_sources req.research_depth)) :
    (research_company providers el te ai_post req rid order).progress_trace.map
      (fun p => p.overall_progress) =
      0 :: ((List.range (selected_sources req.research_depth).length).map
        (fun j : ℕ => ((j : ℚ) + 1) /
          ((selected_sources req.research_depth).length : ℚ) * 100) ++ [100]) := by
  have hlen : order.length = (selected_sources req.research_depth).length := by
    rw [h.length_eq, dispatched_sources_eq_selected]
  rw [research_company_progress_trace]
  rw [List.map_cons, List.map_append]
  rw [execute_research_pipeline_trace_overall, hlen]
  rfl

theorem research_company_trace_hits_100_midway
    (providers : ResearchSource → ProbeModel) (el : ResearchSource → ℚ)
    (te : ℚ) (ai_post : Payload → List ResearchTaskResult → Payload)
    (req : CompanyResearchRequest) (rid : String)
    (order : List ResearchSource)
    (h : order.Perm (dispatched_sources req.research_depth)) :
    ∃ p ∈ (research_company providers el te ai_post req rid order).progress_trace,
      p.overall_progress = 100 ∧ p.status = ResearchStatus.IN_PROGRESS := by
  have hlen : order.length = (selected_sources req.research_depth).length := by
    rw [h.length_eq, dispatched_sources_eq_selected]
  obtain ⟨n, hn⟩ : ∃ n, (selected_sources req.research_depth).length = n + 1 :=
    ⟨(selected_sources req.research_depth).length - 1, by
      have := selected_sources_length_pos req.research_depth
      omega⟩
  have hA : ((execute_research_pipeline providers el
      (selected_sources req.research_depth) order
      { request_id := rid, company_name := company_label req,
        overall_progress := 0,
        status := ResearchStatus.IN_PROGRESS }).trace).map
        (fun p => p.overall_progress) =
      (List.range (selected_sources req.research_depth).length).map
        (fun j : ℕ => ((j : ℚ) + 1) /
          ((selected_sources req.research_depth).length : ℚ) * 100) := by
    rw [execute_research_pipeline_trace_overall, hlen]
  have hlast : (((execute_research_pipeline providers el
      (selected_sources req.research_depth) order
      { request_id := rid, company_name := company_label req,
        overall_progress := 0,
        status := ResearchStatus.IN_PROGRESS }).trace).map
        (fun p => p.overall_progress)).getLast? =
      some (((n : ℚ) + 1) /
        (((selected_sources req.research_depth).length : ℕ) : ℚ) * 100) := by
    rw [hA, hn, List.range_succ, List.map_append]
    exact List.getLast?_concat _
  have hfn : ((n : ℚ) + 1) /
      (((selected_sources req.research_depth).length : ℕ) : ℚ) * 100 = 100 := by
    rw [hn]
    push_cast
    rw [div_self (by positivity : ((n : ℚ) + 1) ≠ 0), one_mul]
  rw [List.getLast?_map] at hlast
  rcases Option.map_eq_some'.1 hlast with ⟨pl, hpl, hplo⟩
  have hmemA := List.mem_of_getLast?_eq_some hpl
  have hst : pl.status = ResearchStatus.IN_PROGRESS :=
    execute_research_pipeline_trace_status providers el
      (selected_sources req.research_depth) order _ pl hmemA
  refine ⟨pl, ?_, ?_, hst⟩
  · rw [research_company_progress_trace]
    exact List.mem_cons_of_mem _ (List.mem_append_left _ hmemA)
  · rw [hplo, hfn]

theorem research_company_trace_final
    (providers : ResearchSource → ProbeModel) (el : ResearchSource → ℚ)
    (te : ℚ) (ai_post : Payload → List ResearchTaskResult → Payload)
    (req : CompanyResearchRequest) (rid : String)
    (order : List ResearchSource) :
    ∃ pf, (research_company providers el te ai_post req rid
        order).progress_trace.getLast? = some pf ∧
      pf.overall_progress = 100 ∧ pf.status = ResearchStatus.COMPLETED := by
  refine ⟨completion_update (selected_sources req.research_depth)
    (execute_research_pipeline providers el
      (selected_sources req.research_depth) order
      { request_id := rid, company_name := company_label req,
        overall_progress := 0,
        status := ResearchStatus.IN_PROGRESS }).progress, ?_, rfl, rfl⟩
  rw [research_company_progress_trace]
  show ((_ :: (execute_research_pipeline providers el
      (selected_sources req.research_depth) order
      { request_id := rid, company_name := company_label req,
        overall_progress := 0,
        status := ResearchStatus.IN_PROGRESS }).trace) ++
      [completion_update (selected_sources req.research_depth)
        (execute_research_pipeline providers el
          (selected_sources req.research_depth) order
          { request_id := rid, company_name := company_label req,
            overall_progress := 0,
            status := ResearchStatus.IN_PROGRESS }).progress]).getLast? = _
  exact List.getLast?_concat _

theorem chain_le_progress_list (T : ℕ) (hT : 0 < T) :
    ((0 : ℚ) :: ((List.range T).map
      (fun j : ℕ => ((j : ℚ) + 1) / (T : ℚ) * 100) ++ [100])).Chain' (· ≤ ·) := by
  obtain ⟨n, rfl⟩ : ∃ n, T = n + 1 := ⟨T - 1, by omega⟩
  have hTq : (0 : ℚ) < ((n : ℚ) + 1) := by positivity
  have hcast : (((n + 1 : ℕ)) : ℚ) = (n : ℚ) + 1 := by push_cast; ring
  have hfmono : ∀ m : ℕ,
      ((m : ℚ) + 1) / (((n + 1 : ℕ)) : ℚ) * 100 ≤
      (((m + 1 : ℕ) : ℚ) + 1) / (((n + 1 : ℕ)) : ℚ) * 100 := by
    intro m
    rw [hcast]
    apply mul_le_mul_of_nonneg_right _ (by norm_num : (0 : ℚ) ≤ 100)
    rw [div_le_div_right hTq]
    push_cast
    linarith
  have hfn : ((n : ℚ) + 1) / (((n + 1 : ℕ)) : ℚ) * 100 = 100 := by
    rw [hcast, div_self (ne_of_gt hTq), one_mul]
  apply List.chain'_cons'.2
  constructor
  · intro y hy
    rw [List.range_succ_eq_map, List.map_cons, List.cons_append,
      List.head?_cons] at hy
    have hy2 : y = ((0 : ℚ) + 1) / (((n + 1 : ℕ)) : ℚ) * 100 := by
      simpa using hy.symm
    rw [hy2]
    positivity
  · apply List.chain'_append.2
    refine ⟨chain_le_range_map (n + 1) _ hfmono, List.chain'_singleton _, ?_⟩
    intro x hx y hy
    rw [List.range_succ, List.map_append] at hx
    simp only [List.map_cons, List.map_nil] at hx
    rw [List.getLast?_concat] at hx
    have hx2 : x = ((n : ℚ) + 1) / (((n + 1 : ℕ)) : ℚ) * 100 := by
      simpa using hx.symm
    have hy2 : y = 100 := by simpa using hy.symm
    rw [hx2, hy2, hfn]

/-! ## Claim theorems -/

/-- C1, counterexample: the spec's scenario — depth `standard`, the domain
registry (WHOIS) unhealthy and failing, WebSearch and KnowledgeGraph
succeeding — must by the claim yield report status Partial; the code builds
the report with `failed_sources = [WHOIS]`, non-empty `sources_used`, and
status `COMPLETED`, not `PARTIAL`. -/
theorem C1_partial_never_produced_counterexample :
    (research_company
        (fun s =>
          match s with
          | ResearchSource.WHOIS => ⟨false, 0, fun _ => Except.error "down"⟩
          | _ => ⟨true, 0, fun _ => Except.ok [("name", PyValue.str "Acme")]⟩)
        (fun _ => 0) 0 (fun _ _ => [])
        { company_name := some "Acme", research_depth := "standard" }
        "rid-1"
        [ResearchSource.WHOIS, ResearchSource.WEB_SEARCH,
         ResearchSource.KNOWLEDGE_GRAPH]).response.failed_sources =
      [ResearchSource.WHOIS] ∧
    (research_company
        (fun s =>
          match s with
          | ResearchSource.WHOIS => ⟨false, 0, fun _ => Except.error "down"⟩
          | _ => ⟨true, 0, fun _ => Except.ok [("name", PyValue.str "Acme")]⟩)
        (fun _ => 0) 0 (fun _ _ => [])
        { company_name := some "Acme", research_depth := "standard" }
        "rid-1"
        [ResearchSource.WHOIS, ResearchSource.WEB_SEARCH,
         ResearchSource.KNOWLEDGE_GRAPH]).response.sources_used =
      [ResearchSource.WEB_SEARCH, ResearchSource.KNOWLEDGE_GRAPH] ∧
    (research_company
        (fun s =>
          match s with
          | ResearchSource.WHOIS => ⟨false, 0, fun _ => Except.error "down"⟩
          | _ => ⟨true, 0, fun _ => Except.ok [("name", PyValue.str "Acme")]⟩)
        (fun _ => 0) 0 (fun _ _ => [])
        { company_name := some "Acme", research_depth := "standard" }
        "rid-1"
        [ResearchSource.WHOIS, ResearchSource.WEB_SEARCH,
         ResearchSource.KNOWLEDGE_GRAPH]).response.research_status =
      ResearchStatus.COMPLETED ∧
    (research_company
        (fun s =>
          match s with
          | ResearchSource.WHOIS => ⟨false, 0, fun _ => Except.error "down"⟩
          | _ => ⟨true, 0, fun _ => Except.ok [("name", PyValue.str "Acme")]⟩)
        (fun _ => 0) 0 (fun _ _ => [])
        { company_name := some "Acme", research_depth := "standard" }
        "rid-1"
        [ResearchSource.WHOIS, ResearchSource.WEB_SEARCH,
         ResearchSource.KNOWLEDGE_GRAPH]).response.research_status ≠
      ResearchStatus.PARTIAL := by
  refine ⟨by decide, by decide, by decide, by decide⟩

/-- C1, amended: the success-path builder `_build_research_response` sets
`research_status = COMPLETED` unconditionally, regardless of
`failed_sources`; the error-path builder `_build_error_response` sets
`FAILED`; the Partial status is never produced. -/
theorem C1_terminal_status_constant
    (req : CompanyResearchRequest) (research_data : Payload)
    (task_results : List ResearchTaskResult) (te : ℚ) (msg : String)
    (providers : ResearchSource → ProbeModel) (el : ResearchSource → ℚ)
    (ai_post : Payload → List ResearchTaskResult → Payload)
    (rid : String) (order : List ResearchSource) :
    (build_research_response req research_data task_results te).research_status =
      ResearchStatus.COMPLETED ∧
    (build_error_response req msg te).research_status = ResearchStatus.FAILED ∧
    (research_company providers el te ai_post req rid order).response.research_status =
      ResearchStatus.COMPLETED := by
  exact ⟨rfl, rfl, rfl⟩

/-- C2: the claim says `research_company` always returns a well-formed
report rather than raising.  In fact neither `_build_research_response` nor
`_build_error_response` passes the required `request_id` field of the
`CompanyResearchResponse` pydantic model, so the construction raises
`ValidationError` on the success path, and raising again inside the
`except` handler propagates it out of `research_company` for every request:
the constructed field record never passes pydantic validation. -/
theorem C2_response_construction_always_rejected
    (req : CompanyResearchRequest) (research_data : Payload)
    (task_results : List ResearchTaskResult) (te : ℚ) (msg : String)
    (providers : ResearchSource → ProbeModel) (el : ResearchSource → ℚ)
    (ai_post : Payload → List ResearchTaskResult → Payload)
    (rid : String) (order : List ResearchSource) :
    response_construction_ok (build_research_response req research_data task_results te) =
      false ∧
    response_construction_ok (build_error_response req msg te) = false ∧
    response_construction_ok
      (research_company providers el te ai_post req rid order).response = false := by
  exact ⟨rfl, rfl, rfl⟩

/-- C4, counterexample: for depth `comprehensive` the AIAnalysis source IS
dispatched as one of the concurrent fan-out tasks (lines 110-114 create a
task for every selected source registered in `research_sources`, and
AIAnalysis is registered), contradicting the claim that it is not. -/
theorem C4_ai_analysis_in_fanout_counterexample :
    ResearchSource.AI_ANALYSIS ∈
      (research_company
        (fun _ => ⟨true, 0, fun _ => Except.ok [("name", PyValue.str "Acme")]⟩)
        (fun _ => 0) 0 (fun _ _ => [])
        { company_name := some "Acme", research_depth := "comprehensive" }
        "rid-2"
        [ResearchSource.WHOIS, ResearchSource.WEB_SEARCH,
         ResearchSource.KNOWLEDGE_GRAPH, ResearchSource.AI_ANALYSIS]).dispatched := by
  decide

/-- C4, amended: when AIAnalysis is selected by the depth it is dispatched
in the concurrent fan-out like every other selected source (receiving empty
inputs there), and in addition runs exactly once after the fan-out,
receiving the aggregated per-source map and the full TaskResult list. -/
theorem C4_ai_analysis_fanout_and_post_stage
    (providers : ResearchSource → ProbeModel) (el : ResearchSource → ℚ)
    (te : ℚ) (ai_post : Payload → List ResearchTaskResult → Payload)
    (req : CompanyResearchRequest) (rid : String)
    (order : List ResearchSource)
    (h : req.research_depth = "comprehensive") :
    ResearchSource.AI_ANALYSIS ∈
      (research_company providers el te ai_post req rid order).dispatched ∧
    (research_company providers el te ai_post req rid order).ai_post_calls =
      [(aggregate_research_data
          (research_company providers el te ai_post req rid order).task_results,
        (research_company providers el te ai_post req rid order).task_results)] := by
  unfold research_company
  rw [h]
  constructor
  · show ResearchSource.AI_ANALYSIS ∈
      List.filter (fun s => decide (s ∈ research_sources_keys))
        (selected_sources "comprehensive")
    decide
  · rfl

/-- C4, witness for the amended theorem at a concrete comprehensive
request. -/
theorem C4_ai_analysis_fanout_and_post_stage_witness :
    ({ company_name := some "Acme",
       research_depth := "comprehensive" } : CompanyResearchRequest).research_depth =
      "comprehensive" ∧
    (ResearchSource.AI_ANALYSIS ∈
      (research_company
        (fun _ => ⟨true, 0, fun _ => Except.ok []⟩) (fun _ => 0) 0
        (fun _ _ => [])
        { company_name := some "Acme", research_depth := "comprehensive" }
        "rid-3" [ResearchSource.AI_ANALYSIS]).dispatched ∧
    (research_company
        (fun _ => ⟨true, 0, fun _ => Except.ok []⟩) (fun _ => 0) 0
        (fun _ _ => [])
        { company_name := some "Acme", research_depth := "comprehensive" }
        "rid-3" [ResearchSource.AI_ANALYSIS]).ai_post_calls =
      [(aggregate_research_data
          (research_company
            (fun _ => ⟨true, 0, fun _ => Except.ok []⟩) (fun _ => 0) 0
            (fun _ _ => [])
            { company_name := some "Acme", research_depth := "comprehensive" }
            "rid-3" [ResearchSource.AI_ANALYSIS]).task_results,
        (research_company
            (fun _ => ⟨true, 0, fun _ => Except.ok []⟩) (fun _ => 0) 0
            (fun _ _ => [])
            { company_name := some "Acme", research_depth := "comprehensive" }
            "rid-3" [ResearchSource.AI_ANALYSIS]).task_results)]) :=
  ⟨rfl, C4_ai_analysis_fanout_and_post_stage _ _ _ _ _ _ _ rfl⟩

/-- C6, counterexample: an unhealthy provider's Failed TaskResult carries
the error message "Service is not healthy" (`base_research_source.py` line
52), not the claimed reason "service unhealthy"; probe is never called. -/
theorem C6_reason_string_counterexample :
    (execute_research ⟨false, 0, fun _ => Except.error "x"⟩
        ResearchSource.WHOIS 0).result.error_message =
      some "Service is not healthy" ∧
    (execute_research ⟨false, 0, fun _ => Except.error "x"⟩
        ResearchSource.WHOIS 0).result.error_message ≠
      some "service unhealthy" ∧
    (execute_research ⟨false, 0, fun _ => Except.error "x"⟩
        ResearchSource.WHOIS 0).result.status = ResearchStatus.FAILED ∧
    (execute_research ⟨false, 0, fun _ => Except.error "x"⟩
        ResearchSource.WHOIS 0).probeCalls = 0 := by
  refine ⟨rfl, by decide, rfl, rfl⟩

/-- C6, amended: if `is_healthy()` is false, `execute_research` returns a
Failed TaskResult immediately whose error message is
"Service is not healthy" (not the claim's "service unhealthy"), making zero
probe calls, sleeping never, and attaching the provider's cost estimate. -/
theorem C6_unhealthy_short_circuit (pm : ProbeModel) (src : ResearchSource)
    (e : ℚ) (h : pm.healthy = false) :
    (execute_research pm src e).result.status = ResearchStatus.FAILED ∧
    (execute_research pm src e).result.error_message =
      some "Service is not healthy" ∧
    (execute_research pm src e).probeCalls = 0 ∧
    (execute_research pm src e).sleeps = [] ∧
    (execute_research pm src e).result.cost_estimate = some pm.cost := by
  unfold execute_research
  rw [if_neg (by simp [h])]
  exact ⟨rfl, rfl, rfl, rfl, rfl⟩

/-- C6, witness for the amended theorem at a concrete unhealthy provider. -/
theorem C6_unhealthy_short_circuit_witness :
    ((⟨false, 0, fun _ => Except.error "x"⟩ : ProbeModel).healthy = false) ∧
    ((execute_research ⟨false, 0, fun _ => Except.error "x"⟩
        ResearchSource.WHOIS 0).result.status = ResearchStatus.FAILED ∧
    (execute_research ⟨false, 0, fun _ => Except.error "x"⟩
        ResearchSource.WHOIS 0).result.error_message =
      some "Service is not healthy" ∧
    (execute_research ⟨false, 0, fun _ => Except.error "x"⟩
        ResearchSource.WHOIS 0).probeCalls = 0 ∧
    (execute_research ⟨false, 0, fun _ => Except.error "x"⟩
        ResearchSource.WHOIS 0).sleeps = [] ∧
    (execute_research ⟨false, 0, fun _ => Except.error "x"⟩
        ResearchSource.WHOIS 0).result.cost_estimate =
      some (⟨false, 0, fun _ => Except.error "x"⟩ : ProbeModel).cost) :=
  ⟨rfl, C6_unhealthy_short_circuit _ ResearchSource.WHOIS 0 rfl⟩

/-- C7: a healthy provider is probed at most 3 times; a provider that fails
on attempts 0 and 1 and succeeds on attempt 2 yields a Completed TaskResult
after exactly two back-off sleeps of `retry_delay_base * 2 ^ k` seconds
(k = 0, 1), i.e. 1s and 2s, with 3 probe calls in total. -/
theorem C7_retry_backoff_policy :
    (∀ (pm : ProbeModel) (src : ResearchSource) (e : ℚ),
      (execute_research pm src e).probeCalls ≤ 3) ∧
    (∀ (pm : ProbeModel) (src : ResearchSource) (e : ℚ)
        (d : Payload) (m0 m1 : String),
      pm.healthy = true →
      pm.probe 0 = Except.error m0 →
      pm.probe 1 = Except.error m1 →
      pm.probe 2 = Except.ok d →
      (execute_research pm src e).result.status = ResearchStatus.COMPLETED ∧
      (execute_research pm src e).sleeps =
        [retry_delay_base * 2 ^ 0, retry_delay_base * 2 ^ 1] ∧
      (execute_research pm src e).sleeps = [1, 2] ∧
      (execute_research pm src e).probeCalls = 3) := by
  constructor
  · intro pm src e
    unfold execute_research
    by_cases h : pm.healthy
    · rw [if_pos h]
      exact retry_loop_calls_le src pm.cost retry_delay_base e pm.probe 0 max_retries
    · rw [if_neg h]
      exact Nat.zero_le 3
  · intro pm src e d m0 m1 h h0 h1 h2
    have s2 : retry_loop src pm.cost retry_delay_base e pm.probe 2 1 =
        ⟨⟨src, ResearchStatus.COMPLETED, some d, none, e, some pm.cost⟩,
          [], 1⟩ := by
      show retry_loop src pm.cost retry_delay_base e pm.probe 2 (Nat.succ 0) = _
      rw [retry_loop.eq_2]
      simp only [h2]
    have s1 : retry_loop src pm.cost retry_delay_base e pm.probe 1 2 =
        ⟨⟨src, ResearchStatus.COMPLETED, some d, none, e, some pm.cost⟩,
          [retry_delay_base * 2 ^ 1], 2⟩ := by
      show retry_loop src pm.cost retry_delay_base e pm.probe 1 (Nat.succ 1) = _
      rw [retry_loop.eq_2]
      simp only [h1]
      rw [if_neg (by norm_num : ¬(1 = 0))]
      simp only [show (1 : ℕ) + 1 = 2 from rfl]
      rw [s2]
    have s0 : retry_loop src pm.cost retry_delay_base e pm.probe 0 3 =
        ⟨⟨src, ResearchStatus.COMPLETED, some d, none, e, some pm.cost⟩,
          [retry_delay_base * 2 ^ 0, retry_delay_base * 2 ^ 1], 3⟩ := by
      show retry_loop src pm.cost retry_delay_base e pm.probe 0 (Nat.succ 2) = _
      rw [retry_loop.eq_2]
      simp only [h0]
      rw [if_neg (by norm_num : ¬(2 = 0))]
      simp only [show (0 : ℕ) + 1 = 1 from rfl]
      rw [s1]
    have hex : execute_research pm src e =
        ⟨⟨src, ResearchStatus.COMPLETED, some d, none, e, some pm.cost⟩,
          [retry_delay_base * 2 ^ 0, retry_delay_base * 2 ^ 1], 3⟩ := by
      unfold execute_research
      rw [if_pos h]
      rw [show max_retries = 3 from rfl]
      exact s0
    rw [hex]
    refine ⟨rfl, rfl, ?_, rfl⟩
    show [retry_delay_base * 2 ^ 0, retry_delay_base * 2 ^ 1] = [1, 2]
    norm_num [retry_delay_base]

/-- C7, witness: a concrete healthy provider failing twice then
succeeding. -/
theorem C7_retry_backoff_policy_witness :
    ((⟨true, 0, fun k => if k < 2 then Except.error "t" else Except.ok []⟩ :
        ProbeModel).healthy = true) ∧
    ((⟨true, 0, fun k => if k < 2 then Except.error "t" else Except.ok []⟩ :
        ProbeModel).probe 0 = Except.error "t") ∧
    ((⟨true, 0, fun k => if k < 2 then Except.error "t" else Except.ok []⟩ :
        ProbeModel).probe 1 = Except.error "t") ∧
    ((⟨true, 0, fun k => if k < 2 then Except.error "t" else Except.ok []⟩ :
        ProbeModel).probe 2 = Except.ok []) ∧
    ((execute_research
        ⟨true, 0, fun k => if k < 2 then Except.error "t" else Except.ok []⟩
        ResearchSource.WEB_SEARCH 0).result.status = ResearchStatus.COMPLETED ∧
    (execute_research
        ⟨true, 0, fun k => if k < 2 then Except.error "t" else Except.ok []⟩
        ResearchSource.WEB_SEARCH 0).sleeps =
      [retry_delay_base * 2 ^ 0, retry_delay_base * 2 ^ 1] ∧
    (execute_research
        ⟨true, 0, fun k => if k < 2 then Except.error "t" else Except.ok []⟩
        ResearchSource.WEB_SEARCH 0).sleeps = [1, 2] ∧
    (execute_research
        ⟨true, 0, fun k => if k < 2 then Except.error "t" else Except.ok []⟩
        ResearchSource.WEB_SEARCH 0).probeCalls = 3) :=
  ⟨rfl, rfl, rfl, rfl,
    C7_retry_backoff_policy.2 _ ResearchSource.WEB_SEARCH 0 [] "t" "t"
      rfl rfl rfl rfl⟩

/-- C8, counterexample: for the unknown depth string "deep", task execution
falls back to the standard source list while cost estimation falls back to
the empty list — the two selections diverge. -/
theorem C8_unknown_depth_divergence_counterexample :
    get_cost_estimate_sources "deep" = [] ∧
    dispatched_sources "deep" =
      [ResearchSource.WHOIS, ResearchSource.WEB_SEARCH,
       ResearchSource.KNOWLEDGE_GRAPH] ∧
    get_cost_estimate_sources "deep" ≠ dispatched_sources "deep" := by
  refine ⟨by decide, by decide, by decide⟩

/-- C8, amended: for the known depth strings the cost-estimation selection
equals the execution selection; for unknown depth strings execution falls
back to the standard list while cost estimation uses the empty list. -/
theorem C8_cost_vs_execution_sources :
    (∀ depth, (pipeline_config depth).isSome = true →
      get_cost_estimate_sources depth = dispatched_sources depth) ∧
    (∀ depth, pipeline_config depth = none →
      dispatched_sources depth =
        [ResearchSource.WHOIS, ResearchSource.WEB_SEARCH,
         ResearchSource.KNOWLEDGE_GRAPH] ∧
      get_cost_estimate_sources depth = []) := by
  constructor
  · intro depth h
    unfold pipeline_config at h
    unfold get_cost_estimate_sources dispatched_sources selected_sources
      pipeline_config
    split_ifs at h ⊢ <;> simp_all <;> decide
  · intro depth h
    unfold pipeline_config at h
    unfold get_cost_estimate_sources dispatched_sources selected_sources
      pipeline_config
    split_ifs at h ⊢ <;> simp_all <;> decide

/-- C8, witness at a known and at an unknown depth. -/
theorem C8_cost_vs_execution_sources_witness :
    (pipeline_config "standard").isSome = true ∧
    get_cost_estimate_sources "standard" = dispatched_sources "standard" ∧
    pipeline_config "deep" = none ∧
    (dispatched_sources "deep" =
      [ResearchSource.WHOIS, ResearchSource.WEB_SEARCH,
       ResearchSource.KNOWLEDGE_GRAPH] ∧
    get_cost_estimate_sources "deep" = []) :=
  ⟨rfl, C8_cost_vs_execution_sources.1 "standard" rfl, rfl,
    C8_cost_vs_execution_sources.2 "deep" rfl⟩

/-- C3: for every pipeline run (any providers, any completion order that is
a permutation of the dispatch list), the report's `sources_used` and
`failed_sources` have empty intersection and both are contained in the
depth-selected source list. -/
theorem C3_sources_disjoint_and_selected
    (providers : ResearchSource → ProbeModel) (el : ResearchSource → ℚ)
    (te : ℚ) (ai_post : Payload → List ResearchTaskResult → Payload)
    (req : CompanyResearchRequest) (rid : String)
    (order : List ResearchSource)
    (h : order.Perm (dispatched_sources req.research_depth)) :
    (research_company providers el te ai_post req rid order).response.sources_used ∩
      (research_company providers el te ai_post req rid order).response.failed_sources =
      [] ∧
    (research_company providers el te ai_post req rid order).response.sources_used ⊆
      selected_sources req.research_depth ∧
    (research_company providers el te ai_post req rid order).response.failed_sources ⊆
      selected_sources req.research_depth := by
  obtain ⟨hu, hf, ht⟩ :=
    research_company_response_fields providers el te ai_post req rid order
  have hmap : ((research_company providers el te ai_post req rid order).task_results.map
      (fun r => r.source)) = order := by
    rw [ht]
    exact pipeline_results_map_source providers el order
  have hnodup : ((research_company providers el te ai_post req rid order).task_results.map
      (fun r => r.source)).Nodup := by
    rw [hmap]
    exact h.nodup_iff.2 (dispatched_sources_nodup req.research_depth)
  have hsub : ∀ s : ResearchSource, s ∈ order →
      s ∈ selected_sources req.research_depth := by
    intro s hs
    have hd : s ∈ dispatched_sources req.research_depth := h.mem_iff.1 hs
    rw [dispatched_sources_eq_selected] at hd
    exact hd
  refine ⟨?_, ?_, ?_⟩
  · rw [hu, hf]
    refine List.inter_eq_nil_iff_disjoint.2 ?_
    intro s hs1 hs2
    exact used_failed_disjoint _ hnodup s hs1 hs2
  · rw [hu]
    intro s hs
    rcases List.mem_map.1 hs with ⟨r, hr, hsr⟩
    refine hsub s ?_
    rw [← hmap]
    subst hsr
    exact List.mem_map_of_mem _ (List.mem_of_mem_filter hr)
  · rw [hf]
    intro s hs
    rcases List.mem_map.1 hs with ⟨r, hr, hsr⟩
    refine hsub s ?_
    rw [← hmap]
    subst hsr
    exact List.mem_map_of_mem _ (List.mem_of_mem_filter hr)

/-- C3, witness at a concrete standard-depth run with one failing source. -/
theorem C3_sources_disjoint_and_selected_witness :
    ([ResearchSource.WHOIS, ResearchSource.WEB_SEARCH,
      ResearchSource.KNOWLEDGE_GRAPH] : List ResearchSource).Perm
      (dispatched_sources
        ({ company_name := some "Acme",
           research_depth := "standard" } : CompanyResearchRequest).research_depth) ∧
    ((research_company
        (fun s =>
          match s with
          | ResearchSource.WHOIS => ⟨false, 0, fun _ => Except.error "down"⟩
          | _ => ⟨true, 0, fun _ => Except.ok [("name", PyValue.str "Acme")]⟩)
        (fun _ => 0) 0 (fun _ _ => [])
        { company_name := some "Acme", research_depth := "standard" }
        "rid-4"
        [ResearchSource.WHOIS, ResearchSource.WEB_SEARCH,
         ResearchSource.KNOWLEDGE_GRAPH]).response.sources_used ∩
      (research_company
        (fun s =>
          match s with
          | ResearchSource.WHOIS => ⟨false, 0, fun _ => Except.error "down"⟩
          | _ => ⟨true, 0, fun _ => Except.ok [("name", PyValue.str "Acme")]⟩)
        (fun _ => 0) 0 (fun _ _ => [])
        { company_name := some "Acme", research_depth := "standard" }
        "rid-4"
        [ResearchSource.WHOIS, ResearchSource.WEB_SEARCH,
         ResearchSource.KNOWLEDGE_GRAPH]).response.failed_sources = [] ∧
    (research_company
        (fun s =>
          match s with
          | ResearchSource.WHOIS => ⟨false, 0, fun _ => Except.error "down"⟩
          | _ => ⟨true, 0, fun _ => Except.ok [("name", PyValue.str "Acme")]⟩)
        (fun _ => 0) 0 (fun _ _ => [])
        { company_name := some "Acme", research_depth := "standard" }
        "rid-4"
        [ResearchSource.WHOIS, ResearchSource.WEB_SEARCH,
         ResearchSource.KNOWLEDGE_GRAPH]).response.sources_used ⊆
      selected_sources
        ({ company_name := some "Acme",
           research_depth := "standard" } : CompanyResearchRequest).research_depth ∧
    (research_company
        (fun s =>
          match s with
          | ResearchSource.WHOIS => ⟨false, 0, fun _ => Except.error "down"⟩
          | _ => ⟨true, 0, fun _ => Except.ok [("name", PyValue.str "Acme")]⟩)
        (fun _ => 0) 0 (fun _ _ => [])
        { company_name := some "Acme", research_depth := "standard" }
        "rid-4"
        [ResearchSource.WHOIS, ResearchSource.WEB_SEARCH,
         ResearchSource.KNOWLEDGE_GRAPH]).response.failed_sources ⊆
      selected_sources
        ({ company_name := some "Acme",
           research_depth := "standard" } : CompanyResearchRequest).research_depth) :=
  have hperm : ([ResearchSource.WHOIS, ResearchSource.WEB_SEARCH,
      ResearchSource.KNOWLEDGE_GRAPH] : List ResearchSource).Perm
      (dispatched_sources "standard") := by
    rw [show dispatched_sources "standard" =
      [ResearchSource.WHOIS, ResearchSource.WEB_SEARCH,
       ResearchSource.KNOWLEDGE_GRAPH] from by decide]
  ⟨hperm,
    C3_sources_disjoint_and_selected
      (fun s =>
        match s with
        | ResearchSource.WHOIS => ⟨false, 0, fun _ => Except.error "down"⟩
        | _ => ⟨true, 0, fun _ => Except.ok [("name", PyValue.str "Acme")]⟩)
      (fun _ => 0) 0 (fun _ _ => [])
      { company_name := some "Acme", research_depth := "standard" }
      "rid-4"
      [ResearchSource.WHOIS, ResearchSource.WEB_SEARCH,
       ResearchSource.KNOWLEDGE_GRAPH] hperm⟩

/-- C9: the report's `total_cost` is `_calculate_total_cost` of its task
results, which equals the sum of every TaskResult's cost estimate (absent
estimates counting 0, which is also what skipping falsy values in the
source loop computes), and is non-negative whenever every provider's cost
estimate is non-negative — which holds for all four concrete services
(WHOIS 0, web search 0.05/0.01/0, knowledge graph 0, AI analysis 0.02). -/
theorem C9_total_cost_sum_nonneg
    (providers : ResearchSource → ProbeModel) (el : ResearchSource → ℚ)
    (te : ℚ) (ai_post : Payload → List ResearchTaskResult → Payload)
    (req : CompanyResearchRequest) (rid : String)
    (order : List ResearchSource)
    (hc : ∀ s, 0 ≤ (providers s).cost) :
    (research_company providers el te ai_post req rid order).response.total_cost =
      some (calculate_total_cost
        (research_company providers el te ai_post req rid order).task_results) ∧
    calculate_total_cost
        (research_company providers el te ai_post req rid order).task_results =
      ((research_company providers el te ai_post req rid order).task_results.map
        (fun r => r.cost_estimate.getD 0)).sum ∧
    0 ≤ calculate_total_cost
        (research_company providers el te ai_post req rid order).task_results ∧
    (0 ≤ whois_cost ∧ 0 ≤ knowledge_graph_cost ∧ 0 ≤ ai_analysis_cost ∧
      ∀ pk gk, 0 ≤ web_search_cost pk gk) := by
  obtain ⟨-, -, ht⟩ :=
    research_company_response_fields providers el te ai_post req rid order
  refine ⟨rfl, calculate_total_cost_eq_sum _, ?_, ?_, ?_, ?_, ?_⟩
  · rw [calculate_total_cost_eq_sum]
    apply List.sum_nonneg
    intro x hx
    rcases List.mem_map.1 hx with ⟨r, hr, rfl⟩
    rw [ht] at hr
    rcases pipeline_results_mem_cost providers el order r hr with ⟨s, hs⟩
    rw [hs]
    exact hc s
  · norm_num [whois_cost]
  · norm_num [knowledge_graph_cost]
  · norm_num [ai_analysis_cost]
  · intro pk gk
    unfold web_search_cost
    split_ifs <;> norm_num

/-- C9, witness at a concrete run with zero-cost providers. -/
theorem C9_total_cost_sum_nonneg_witness :
    (∀ s : ResearchSource,
      0 ≤ ((fun _ : ResearchSource =>
        (⟨true, 0, fun _ => Except.ok []⟩ : ProbeModel)) s).cost) ∧
    ((research_company
        (fun _ : ResearchSource => ⟨true, 0, fun _ => Except.ok []⟩)
        (fun _ => 0) 0 (fun _ _ => [])
        { company_name := some "Acme", research_depth := "basic" }
        "rid-5" [ResearchSource.WEB_SEARCH]).response.total_cost =
      some (calculate_total_cost
        (research_company
          (fun _ : ResearchSource => ⟨true, 0, fun _ => Except.ok []⟩)
          (fun _ => 0) 0 (fun _ _ => [])
          { company_name := some "Acme", research_depth := "basic" }
          "rid-5" [ResearchSource.WEB_SEARCH]).task_results) ∧
    calculate_total_cost
        (research_company
          (fun _ : ResearchSource => ⟨true, 0, fun _ => Except.ok []⟩)
          (fun _ => 0) 0 (fun _ _ => [])
          { company_name := some "Acme", research_depth := "basic" }
          "rid-5" [ResearchSource.WEB_SEARCH]).task_results =
      ((research_company
          (fun _ : ResearchSource => ⟨true, 0, fun _ => Except.ok []⟩)
          (fun _ => 0) 0 (fun _ _ => [])
          { company_name := some "Acme", research_depth := "basic" }
          "rid-5" [ResearchSource.WEB_SEARCH]).task_results.map
        (fun r => r.cost_estimate.getD 0)).sum ∧
    0 ≤ calculate_total_cost
        (research_company
          (fun _ : ResearchSource => ⟨true, 0, fun _ => Except.ok []⟩)
          (fun _ => 0) 0 (fun _ _ => [])
          { company_name := some "Acme", research_depth := "basic" }
          "rid-5" [ResearchSource.WEB_SEARCH]).task_results ∧
    (0 ≤ whois_cost ∧ 0 ≤ knowledge_graph_cost ∧ 0 ≤ ai_analysis_cost ∧
      ∀ pk gk, 0 ≤ web_search_cost pk gk)) :=
  ⟨fun _ => le_refl 0,
    C9_total_cost_sum_nonneg
      (fun _ : ResearchSource => ⟨true, 0, fun _ => Except.ok []⟩)
      (fun _ => 0) 0 (fun _ _ => [])
      { company_name := some "Acme", research_depth := "basic" }
      "rid-5" [ResearchSource.WEB_SEARCH] (fun _ => le_refl 0)⟩

/-- C10: cancellation is not sticky.  If a session is registered,
`cancel_research` returns true and leaves the session Failed with progress
0; applying the completion-path write (lines 80-82, `completion_update`)
through the registry alias afterwards overwrites the same session to
Completed with progress 100 — nothing in the completion path checks for a
cancelled status, so later progress polls report Completed. -/
theorem C10_cancellation_not_sticky (sessions : SessionMap) (rid : String)
    (p : ResearchProgress) (srcs : List ResearchSource)
    (h : get_research_progress sessions rid = some p) :
    (cancel_research sessions rid).2 = true ∧
    get_research_progress (cancel_research sessions rid).1 rid =
      some (cancel_update p) ∧
    (cancel_update p).status = ResearchStatus.FAILED ∧
    (cancel_update p).overall_progress = 0 ∧
    get_research_progress
        (session_write (cancel_research sessions rid).1 rid
          (completion_update srcs)) rid =
      some (completion_update srcs (cancel_update p)) ∧
    (completion_update srcs (cancel_update p)).status =
      ResearchStatus.COMPLETED ∧
    (completion_update srcs (cancel_update p)).overall_progress = 100 := by
  obtain ⟨kv, hkv, -⟩ : ∃ kv, sessions.find? (fun kv => kv.1 == rid) = some kv ∧
      kv.2 = p := by
    unfold get_research_progress at h
    rcases Option.map_eq_some'.1 h with ⟨kv, hkv, hp⟩
    exact ⟨kv, hkv, hp⟩
  have hc : cancel_research sessions rid =
      (session_write sessions rid cancel_update, true) := by
    unfold cancel_research
    rw [hkv]
  rw [hc]
  refine ⟨rfl, ?_, rfl, rfl, ?_, rfl, rfl⟩
  · rw [get_session_write, h]
    rfl
  · rw [get_session_write, get_session_write, h]
    rfl

/-- C10, witness at a concrete in-flight session. -/
theorem C10_cancellation_not_sticky_witness :
    get_research_progress
        [("r1", (⟨"r1", "Acme", 40, [], [], ResearchStatus.IN_PROGRESS⟩ :
          ResearchProgress))] "r1" =
      some ⟨"r1", "Acme", 40, [], [], ResearchStatus.IN_PROGRESS⟩ ∧
    ((cancel_research
        [("r1", (⟨"r1", "Acme", 40, [], [], ResearchStatus.IN_PROGRESS⟩ :
          ResearchProgress))] "r1").2 = true ∧
    get_research_progress
        (cancel_research
          [("r1", (⟨"r1", "Acme", 40, [], [], ResearchStatus.IN_PROGRESS⟩ :
            ResearchProgress))] "r1").1 "r1" =
      some (cancel_update
        ⟨"r1", "Acme", 40, [], [], ResearchStatus.IN_PROGRESS⟩) ∧
    (cancel_update
        (⟨"r1", "Acme", 40, [], [], ResearchStatus.IN_PROGRESS⟩ :
          ResearchProgress)).status = ResearchStatus.FAILED ∧
    (cancel_update
        (⟨"r1", "Acme", 40, [], [], ResearchStatus.IN_PROGRESS⟩ :
          ResearchProgress)).overall_progress = 0 ∧
    get_research_progress
        (session_write
          (cancel_research
            [("r1", (⟨"r1", "Acme", 40, [], [], ResearchStatus.IN_PROGRESS⟩ :
              ResearchProgress))] "r1").1 "r1"
          (completion_update [ResearchSource.WEB_SEARCH])) "r1" =
      some (completion_update [ResearchSource.WEB_SEARCH]
        (cancel_update
          ⟨"r1", "Acme", 40, [], [], ResearchStatus.IN_PROGRESS⟩)) ∧
    (completion_update [ResearchSource.WEB_SEARCH]
        (cancel_update
          (⟨"r1", "Acme", 40, [], [], ResearchStatus.IN_PROGRESS⟩ :
            ResearchProgress))).status = ResearchStatus.COMPLETED ∧
    (completion_update [ResearchSource.WEB_SEARCH]
        (cancel_update
          (⟨"r1", "Acme", 40, [], [], ResearchStatus.IN_PROGRESS⟩ :
            ResearchProgress))).overall_progress = 100) :=
  ⟨rfl,
    C10_cancellation_not_sticky
      [("r1", ⟨"r1", "Acme", 40, [], [], ResearchStatus.IN_PROGRESS⟩)] "r1"
      ⟨"r1", "Acme", 40, [], [], ResearchStatus.IN_PROGRESS⟩
      [ResearchSource.WEB_SEARCH] rfl⟩

/-- C5, counterexample: in a fully successful standard-depth run, the
session's progress object reaches exactly 100 when the last fan-out task
completes, while its status is still InProgress — a non-terminal status —
contradicting the claim that progress equals 100 only at terminal status. -/
theorem C5_progress_100_while_in_progress_counterexample :
    ∃ p ∈ (research_company
        (fun _ => ⟨true, 0, fun _ => Except.ok [("name", PyValue.str "Acme")]⟩)
        (fun _ => 0) 0 (fun _ _ => [])
        { company_name := some "Acme", research_depth := "standard" }
        "rid-6"
        [ResearchSource.WHOIS, ResearchSource.WEB_SEARCH,
         ResearchSource.KNOWLEDGE_GRAPH]).progress_trace,
      p.overall_progress = 100 ∧ is_terminal p.status = false := by
  have hperm : ([ResearchSource.WHOIS, ResearchSource.WEB_SEARCH,
      ResearchSource.KNOWLEDGE_GRAPH] : List ResearchSource).Perm
      (dispatched_sources "standard") := by
    rw [show dispatched_sources "standard" =
      [ResearchSource.WHOIS, ResearchSource.WEB_SEARCH,
       ResearchSource.KNOWLEDGE_GRAPH] from by decide]
  obtain ⟨p, hmem, h100, hst⟩ :=
    research_company_trace_hits_100_midway
      (fun _ => ⟨true, 0, fun _ => Except.ok [("name", PyValue.str "Acme")]⟩)
      (fun _ => 0) 0 (fun _ _ => [])
      { company_name := some "Acme", research_depth := "standard" }
      "rid-6"
      [ResearchSource.WHOIS, ResearchSource.WEB_SEARCH,
       ResearchSource.KNOWLEDGE_GRAPH] hperm
  exact ⟨p, hmem, h100, by rw [hst]; rfl⟩

/-- C5, amended: along the success path of a run (no cancellation, any
providers, any completion order), overall_progress is monotonically
non-decreasing, but it reaches exactly 100 already when the last fan-out
task completes, while the status is still the non-terminal InProgress; the
trace ends with the terminal Completed state at progress 100. -/
theorem C5_progress_monotone_and_early_100
    (providers : ResearchSource → ProbeModel) (el : ResearchSource → ℚ)
    (te : ℚ) (ai_post : Payload → List ResearchTaskResult → Payload)
    (req : CompanyResearchRequest) (rid : String)
    (order : List ResearchSource)
    (h : order.Perm (dispatched_sources req.research_depth)) :
    ((research_company providers el te ai_post req rid order).progress_trace.map
      (fun p => p.overall_progress)).Chain' (· ≤ ·) ∧
    (∃ p ∈ (research_company providers el te ai_post req rid order).progress_trace,
      p.overall_progress = 100 ∧ p.status = ResearchStatus.IN_PROGRESS ∧
      is_terminal p.status = false) ∧
    (∃ pf, (research_company providers el te ai_post req rid
        order).progress_trace.getLast? = some pf ∧
      pf.overall_progress = 100 ∧ pf.status = ResearchStatus.COMPLETED ∧
      is_terminal pf.status = true) := by
  refine ⟨?_, ?_, ?_⟩
  · rw [research_company_progress_values providers el te ai_post req rid order h]
    exact chain_le_progress_list _ (selected_sources_length_pos _)
  · obtain ⟨p, hm, h100, hst⟩ :=
      research_company_trace_hits_100_midway providers el te ai_post req rid order h
    exact ⟨p, hm, h100, hst, by rw [hst]; rfl⟩
  · obtain ⟨pf, hl, h100, hst⟩ :=
      research_company_trace_final providers el te ai_post req rid order
    exact ⟨pf, hl, h100, hst, by rw [hst]; rfl⟩

/-- C5, witness for the amended theorem at a concrete standard-depth run. -/
theorem C5_progress_monotone_and_early_100_witness :
    ([ResearchSource.WHOIS, ResearchSource.WEB_SEARCH,
      ResearchSource.KNOWLEDGE_GRAPH] : List ResearchSource).Perm
      (dispatched_sources "standard") ∧
    (((research_company
        (fun _ => ⟨true, 0, fun _ => Except.ok [("name", PyValue.str "Acme")]⟩)
        (fun _ => 0) 0 (fun _ _ => [])
        { company_name := some "Acme", research_depth := "standard" }
        "rid-7"
        [ResearchSource.WHOIS, ResearchSource.WEB_SEARCH,
         ResearchSource.KNOWLEDGE_GRAPH]).progress_trace.map
        (fun p => p.overall_progress)).Chain' (· ≤ ·) ∧
    (∃ p ∈ (research_company
        (fun _ => ⟨true, 0, fun _ => Except.ok [("name", PyValue.str "Acme")]⟩)
        (fun _ => 0) 0 (fun _ _ => [])
        { company_name := some "Acme", research_depth := "standard" }
        "rid-7"
        [ResearchSource.WHOIS, ResearchSource.WEB_SEARCH,
         ResearchSource.KNOWLEDGE_GRAPH]).progress_trace,
      p.overall_progress = 100 ∧ p.status = ResearchStatus.IN_PROGRESS ∧
      is_terminal p.status = false) ∧
    (∃ pf, (research_company
        (fun _ => ⟨true, 0, fun _ => Except.ok [("name", PyValue.str "Acme")]⟩)
        (fun _ => 0) 0 (fun _ _ => [])
        { company_name := some "Acme", research_depth := "standard" }
        "rid-7"
        [ResearchSource.WHOIS, ResearchSource.WEB_SEARCH,
         ResearchSource.KNOWLEDGE_GRAPH]).progress_trace.getLast? = some pf ∧
      pf.overall_progress = 100 ∧ pf.status = ResearchStatus.COMPLETED ∧
      is_terminal pf.status = true)) :=
  have hperm : ([ResearchSource.WHOIS, ResearchSource.WEB_SEARCH,
      ResearchSource.KNOWLEDGE_GRAPH] : List ResearchSource).Perm
      (dispatched_sources "standard") := by
    rw [show dispatched_sources "standard" =
      [ResearchSource.WHOIS, ResearchSource.WEB_SEARCH,
       ResearchSource.KNOWLEDGE_GRAPH] from by decide]
  ⟨hperm,
    C5_progress_monotone_and_early_100
      (fun _ => ⟨true, 0, fun _ => Except.ok [("name", PyValue.str "Acme")]⟩)
      (fun _ => 0) 0 (fun _ _ => [])
      { company_name := some "Acme", research_depth := "standard" }
      "rid-7"
      [ResearchSource.WHOIS, ResearchSource.WEB_SEARCH,
       ResearchSource.KNOWLEDGE_GRAPH] hperm⟩

end JobHelp
